import Mathlib

/-!
Verification development for the MOR-Agent tools module
(`src/agent/src/tools.py`).

The module is a stateless shim: each "fetcher" issues one or more HTTP GET
requests against an external provider, extracts a field from the JSON body,
and either returns it, returns `None` for a not-found condition, or raises.
Each "presentation adapter" wraps a fetcher and converts the outcome into a
user-facing string.

Shallow embedding conventions:
- JSON bodies and Python values flowing out of `response.json()` are
  modelled by the inductive type `Json`; Python `None` is `Json.null`.
- Python exceptions are modelled by `Except PyError`; the error type
  distinguishes `requests.exceptions.RequestException` (connection error or
  the non-2xx status raised by `raise_for_status`) from `KeyError`,
  `IndexError`, `TypeError`/`AttributeError` and `ValueError`, because the
  adapters' `except` clauses discriminate on the exception class.
- The external providers are modelled by a record `Provider` of response
  functions, one per endpoint shape used by the module; an HTTP GET is an
  application of the corresponding field.  Each fetcher additionally
  returns the ordered list of requests it issued, so that "no request was
  sent to endpoint X" is expressible as a property of the trace.
-/

/-- A JSON value / Python object as returned by `response.json()`.
Numbers are modelled as integers (the values exercised by the module's
contracts are integral); Python `None` is `Json.null`. -/
inductive Json where
  | null
  | bool (b : Bool)
  | num (n : Int)
  | str (s : String)
  | arr (xs : List Json)
  | obj (kvs : List (String × Json))

mutual

/-- Structural equality on JSON values, modelling Python `==` on the
objects produced by JSON decoding. -/
def Json.beq : Json → Json → Bool
  | .null, .null => true
  | .bool a, .bool b => a == b
  | .num a, .num b => a == b
  | .str a, .str b => a == b
  | .arr xs, .arr ys => Json.beqL xs ys
  | .obj xs, .obj ys => Json.beqO xs ys
  | _, _ => false

/-- Elementwise `Json.beq` on lists. -/
def Json.beqL : List Json → List Json → Bool
  | [], [] => true
  | x :: xs, y :: ys => Json.beq x y && Json.beqL xs ys
  | _, _ => false

/-- Elementwise `Json.beq` on key/value pair lists. -/
def Json.beqO : List (String × Json) → List (String × Json) → Bool
  | [], [] => true
  | x :: xs, y :: ys => (x.1 == y.1 && Json.beq x.2 y.2) && Json.beqO xs ys
  | _, _ => false

end

instance : BEq Json := ⟨Json.beq⟩

/-- Python truthiness of a JSON value: `None`, `False`, `0`, the empty
string, the empty list and the empty dict are falsy, everything else is
truthy.  Used to model `if not coin_id:`, `if data['coins']` etc. -/
def Json.truthy : Json → Bool
  | .null => false
  | .bool b => b
  | .num n => n != 0
  | .str s => s != ""
  | .arr xs => !xs.isEmpty
  | .obj kvs => !kvs.isEmpty

mutual

/-- Python `repr` of a JSON value (the form used for elements inside
formatted containers).  String escaping is not modelled; the strings
exercised here contain no quotes. -/
def Json.pyRepr : Json → String
  | .null => "None"
  | .bool b => if b then "True" else "False"
  | .num n => toString n
  | .str s => "\x27" ++ s ++ "\x27"
  | .arr xs => "[" ++ Json.pyReprL xs ++ "]"
  | .obj kvs => "\x7b" ++ Json.pyReprO kvs ++ "\x7d"

/-- Comma-separated `repr`s of list elements. -/
def Json.pyReprL : List Json → String
  | [] => ""
  | [x] => Json.pyRepr x
  | x :: xs => Json.pyRepr x ++ ", " ++ Json.pyReprL xs

/-- Comma-separated `repr`s of dict entries. -/
def Json.pyReprO : List (String × Json) → String
  | [] => ""
  | [kv] => "\x27" ++ kv.1 ++ "\x27: " ++ Json.pyRepr kv.2
  | kv :: kvs => "\x27" ++ kv.1 ++ "\x27: " ++ Json.pyRepr kv.2 ++ ", " ++ Json.pyReprO kvs

end

/-- Python `str` of a JSON value, as applied by f-string interpolation and
`str.format`: a string renders as itself, every other value as its
`repr`. -/
def Json.pyStr : Json → String
  | .str s => s
  | j => j.pyRepr

/-- The Python exceptions the module's control flow discriminates on. -/
inductive PyError where
  | requestException
  | keyError (k : String)
  | indexError
  | typeError
  | valueError (msg : String)
deriving DecidableEq, Repr

/-- Outcome of one HTTP GET: a 2xx response with a JSON body, or a
transport failure (connection error, or a non-2xx status which
`response.raise_for_status()` turns into a `RequestException`). -/
inductive HttpResult where
  | ok (body : Json)
  | httpError

/-- One outbound request, identified by the endpoint shape and the
parameters interpolated into the URL / query string. -/
inductive Request where
  | search (query : String)
  | simplePrice (ids : Json)
  | nftsReq (id : Json)
  | coinsReq (id : Json)
  | coinsMarkets (ids : Json)
  | protocolsReq
  | tvlReq (slug : Json)
  | balanceReq (blockchain wallet : String)
  | txReq (blockchain wallet : String)
  | gasReq (blockchain : String)
  | metadataReq (blockchain token : String)

/-- The three external services, as response functions per endpoint.
The non-string parameters of the pricing endpoints carry the resolved
CoinGecko ID exactly as the code interpolates it. -/
structure Provider where
  search : String → HttpResult
  simplePrice : Json → HttpResult
  nfts : Json → HttpResult
  coins : Json → HttpResult
  coinsMarkets : Json → HttpResult
  protocols : HttpResult
  tvl : Json → HttpResult
  walletBalance : String → String → HttpResult
  transactions : String → String → HttpResult
  gasFees : String → HttpResult
  tokenMetadata : String → String → HttpResult

/-- Python `d[k]` on a JSON value: field lookup on a dict (`KeyError` when
absent), `TypeError` on any non-dict. -/
def pyGetItem : Json → String → Except PyError Json
  | .obj kvs, k =>
    match kvs.lookup k with
    | some v => .ok v
    | none => .error (.keyError k)
  | _, _ => .error .typeError

/-- Python `d[key]` where the key is itself a decoded JSON value (as in
`response.json()[coin_id]`): JSON object keys are strings, so a non-string
key never matches and raises `KeyError`. -/
def pyGetItemJ : Json → Json → Except PyError Json
  | .obj kvs, .str k =>
    match kvs.lookup k with
    | some v => .ok v
    | none => .error (.keyError k)
  | .obj _, _ => .error (.keyError "")
  | _, _ => .error .typeError

/-- Python `d.get(k)`: `None` when the key is absent, failing only when the
receiver is not a dict (`AttributeError`, folded into `typeError`). -/
def pyGet : Json → String → Except PyError Json
  | .obj kvs, k => .ok ((kvs.lookup k).getD .null)
  | _, _ => .error .typeError

/-- Python `d.get(k, default)`. -/
def pyGetD : Json → String → Json → Except PyError Json
  | .obj kvs, k, d => .ok ((kvs.lookup k).getD d)
  | _, _, _ => .error .typeError

/-- Python `l[i]` for a natural index: list indexing (`IndexError` when out
of range), single-character string indexing, `TypeError` otherwise. -/
def pyIndex : Json → Nat → Except PyError Json
  | .arr xs, i =>
    match xs.get? i with
    | some v => .ok v
    | none => .error .indexError
  | .str s, i =>
    match s.data.get? i with
    | some c => .ok (.str (String.mk [c]))
    | none => .error .indexError
  | _, _ => .error .typeError

/-- Python `len`: defined for strings, lists and dicts, `TypeError`
otherwise. -/
def pyLen : Json → Except PyError Nat
  | .str s => .ok s.length
  | .arr xs => .ok xs.length
  | .obj kvs => .ok kvs.length
  | _ => .error .typeError

/-- A fetcher outcome: the Python result (value or raised exception)
paired with the ordered trace of HTTP requests issued. -/
abbrev Fetch (α : Type) := Except PyError α × List Request

/-- `get_wallet_balance(wallet_address, blockchain="ethereum")`
(tools.py:10-21): GET `{blockchain}/wallet/{wallet_address}/balance`,
raise on transport failure, return `response.json()["balance"]`. -/
def get_wallet_balance (p : Provider) (wallet_address : String)
    (blockchain : String := "ethereum") : Fetch Json :=
  match p.walletBalance blockchain wallet_address with
  | .httpError => (.error .requestException, [.balanceReq blockchain wallet_address])
  | .ok body => (pyGetItem body "balance", [.balanceReq blockchain wallet_address])

/-- `get_transaction_history(wallet_address, blockchain="ethereum")`
(tools.py:23-33): GET `{blockchain}/wallet/{wallet_address}/transactions`,
raise on transport failure, return `response.json()["transactions"]`. -/
def get_transaction_history (p : Provider) (wallet_address : String)
    (blockchain : String := "ethereum") : Fetch Json :=
  match p.transactions blockchain wallet_address with
  | .httpError => (.error .requestException, [.txReq blockchain wallet_address])
  | .ok body => (pyGetItem body "transactions", [.txReq blockchain wallet_address])

/-- `get_gas_fees(blockchain="ethereum")` (tools.py:35-45): GET
`{blockchain}/gas-fees`, raise on transport failure, return
`response.json()["fees"]`. -/
def get_gas_fees (p : Provider) (blockchain : String := "ethereum") : Fetch Json :=
  match p.gasFees blockchain with
  | .httpError => (.error .requestException, [.gasReq blockchain])
  | .ok body => (pyGetItem body "fees", [.gasReq blockchain])

/-- `get_token_metadata(token_id, blockchain="ethereum")` (tools.py:47-57):
GET `{blockchain}/tokens/{token_id}/metadata`, raise on transport failure,
return the whole JSON body. -/
def get_token_metadata (p : Provider) (token_id : String)
    (blockchain : String := "ethereum") : Fetch Json :=
  match p.tokenMetadata blockchain token_id with
  | .httpError => (.error .requestException, [.metadataReq blockchain token_id])
  | .ok body => (.ok body, [.metadataReq blockchain token_id])

/-- `get_coingecko_id(text, type="coin")` (tools.py:72-88): GET the
`/search` endpoint; on a 2xx response return
`data['coins'][0]['id'] if data['coins'] else None` for kind `"coin"`,
`data['nfts'][0]['id'] if data.get('nfts') else None` for kind `"nft"`,
and raise `ValueError` for any other kind.  Transport failures are logged
and re-raised; note that the coin branch subscripts `data['coins']`
directly, so an absent `'coins'` key raises `KeyError`, while the nft
branch uses `.get` and treats an absent key as not-found. -/
def get_coingecko_id (p : Provider) (text : String)
    (type : String := "coin") : Fetch Json :=
  match p.search text with
  | .httpError => (.error .requestException, [.search text])
  | .ok data =>
    (if type = "coin" then
      match pyGetItem data "coins" with
      | .error e => .error e
      | .ok coins =>
        if coins.truthy then
          match pyIndex coins 0 with
          | .error e => .error e
          | .ok entry => pyGetItem entry "id"
        else .ok .null
    else if type = "nft" then
      match pyGet data "nfts" with
      | .error e => .error e
      | .ok nfts =>
        if nfts.truthy then
          match pyIndex nfts 0 with
          | .error e => .error e
          | .ok entry => pyGetItem entry "id"
        else .ok .null
    else .error (.valueError "Invalid type specified"),
    [.search text])

/-- `get_price(coin)` (tools.py:90-103): resolve the coin name via
`get_coingecko_id`; `if not coin_id: return None`; otherwise GET
`/simple/price?ids={coin_id}&vs_currencies=USD` and return
`response.json()[coin_id]['usd']`. -/
def get_price (p : Provider) (coin : String) : Fetch Json :=
  match get_coingecko_id p coin "coin" with
  | (.error e, t) => (.error e, t)
  | (.ok coin_id, t) =>
    if !coin_id.truthy then (.ok .null, t)
    else
      match p.simplePrice coin_id with
      | .httpError => (.error .requestException, t ++ [.simplePrice coin_id])
      | .ok body =>
        ((pyGetItemJ body coin_id).bind (fun d => pyGetItem d "usd"),
         t ++ [.simplePrice coin_id])

/-- `get_floor_price(nft)` (tools.py:105-117): resolve the NFT name via
`get_coingecko_id(str(nft), type="nft")`; `if not nft_id: return None`;
otherwise GET `/nfts/{nft_id}` and return
`response.json()["floor_price"]["usd"]`. -/
def get_floor_price (p : Provider) (nft : String) : Fetch Json :=
  match get_coingecko_id p nft "nft" with
  | (.error e, t) => (.error e, t)
  | (.ok nft_id, t) =>
    if !nft_id.truthy then (.ok .null, t)
    else
      match p.nfts nft_id with
      | .httpError => (.error .requestException, t ++ [.nftsReq nft_id])
      | .ok body =>
        ((pyGetItem body "floor_price").bind (fun d => pyGetItem d "usd"),
         t ++ [.nftsReq nft_id])

/-- `get_fdv(coin)` (tools.py:119-132): resolve the coin name; `if not
coin_id: return None`; otherwise GET `/coins/{coin_id}` and return
`data.get("market_data", {}).get("fully_diluted_valuation", {}).get("usd")`. -/
def get_fdv (p : Provider) (coin : String) : Fetch Json :=
  match get_coingecko_id p coin "coin" with
  | (.error e, t) => (.error e, t)
  | (.ok coin_id, t) =>
    if !coin_id.truthy then (.ok .null, t)
    else
      match p.coins coin_id with
      | .httpError => (.error .requestException, t ++ [.coinsReq coin_id])
      | .ok body =>
        ((pyGetD body "market_data" (.obj [])).bind
           (fun md => (pyGetD md "fully_diluted_valuation" (.obj [])).bind
             (fun f => pyGet f "usd")),
         t ++ [.coinsReq coin_id])

/-- `get_market_cap(coin)` (tools.py:134-147): resolve the coin name;
`if not coin_id: return None`; otherwise GET
`/coins/markets?ids={coin_id}&vs_currency=USD` and return
`response.json()[0]['market_cap']` — the first list element, so an empty
list raises `IndexError`. -/
def get_market_cap (p : Provider) (coin : String) : Fetch Json :=
  match get_coingecko_id p coin "coin" with
  | (.error e, t) => (.error e, t)
  | (.ok coin_id, t) =>
    if !coin_id.truthy then (.ok .null, t)
    else
      match p.coinsMarkets coin_id with
      | .httpError => (.error .requestException, t ++ [.coinsMarkets coin_id])
      | .ok body =>
        ((pyIndex body 0).bind (fun e0 => pyGetItem e0 "market_cap"),
         t ++ [.coinsMarkets coin_id])

/-- `get_protocols_list()` (tools.py:149-159): GET `/protocols` and return
the pair `([item['slug'] for item in data], [item['gecko_id'] for item in data])`.
The first comprehension runs to completion before the second starts. -/
def get_protocols_list (p : Provider) : Except PyError (List Json × List Json) × List Request :=
  match p.protocols with
  | .httpError => (.error .requestException, [.protocolsReq])
  | .ok data =>
    (match data with
     | .arr items =>
       (items.mapM (fun it => pyGetItem it "slug")).bind (fun slugs =>
         (items.mapM (fun it => pyGetItem it "gecko_id")).map (fun geckos =>
           (slugs, geckos)))
     | _ => .error .typeError,
     [.protocolsReq])

/-- `get_protocol_tvl(protocol_name)` (tools.py:161-177): fetch the full
protocol list, resolve the protocol name via `get_coingecko_id` (default
kind `"coin"`); `if not tag: return None`; take
`next((i for i, j in zip(id, gecko) if j == tag), None)`; `if not
protocol_id: return None` — note this is a truthiness test, so a matched
but falsy slug also yields `None`; otherwise GET `/tvl/{protocol_id}` and
return the raw JSON payload. -/
def get_protocol_tvl (p : Provider) (protocol_name : String) : Fetch Json :=
  match get_protocols_list p with
  | (.error e, t) => (.error e, t)
  | (.ok (ids, geckos), t1) =>
    match get_coingecko_id p protocol_name "coin" with
    | (.error e, t2) => (.error e, t1 ++ t2)
    | (.ok tag, t2) =>
      let t := t1 ++ t2
      if !tag.truthy then (.ok .null, t)
      else
        match ((ids.zip geckos).find? (fun ij => Json.beq ij.2 tag)).map Prod.fst with
        | none => (.ok .null, t)
        | some protocol_id =>
          if !protocol_id.truthy then (.ok .null, t)
          else
            match p.tvl protocol_id with
            | .httpError => (.error .requestException, t ++ [.tvlReq protocol_id])
            | .ok body => (.ok body, t ++ [.tvlReq protocol_id])

namespace Config

/-- Modelled from the spec: `config.py` is not under `src/`; the spec only
fixes that each adapter has a fixed "no data" message.  The exact text is
irrelevant to the contracts, which depend only on the messages being fixed
strings. -/
def PRICE_FAILURE_MESSAGE : String := "Failed to retrieve coin price."

/-- Modelled from the spec: the single fixed API-error message the
CoinGecko/DefiLlama adapters return for transport failures. -/
def API_ERROR_MESSAGE : String := "API error occurred."

/-- Modelled from the spec: the success template for `get_coin_price_tool`,
"a formatted sentence embedding the query and the result"; the spec's
end-to-end property requires the rendered message to contain the coin name
and the price. -/
def PRICE_SUCCESS_MESSAGE (coin_name price : String) : String :=
  "The current price of " ++ coin_name ++ " is " ++ price ++ " USD."

/-- Modelled from the spec: fixed no-data message of the floor-price
adapter. -/
def FLOOR_PRICE_FAILURE_MESSAGE : String := "Failed to retrieve NFT floor price."

/-- Modelled from the spec: success template of the floor-price adapter. -/
def FLOOR_PRICE_SUCCESS_MESSAGE (nft_name floor_price : String) : String :=
  "The floor price of " ++ nft_name ++ " is " ++ floor_price ++ " USD."

/-- Modelled from the spec: fixed no-data message of the TVL adapter. -/
def TVL_FAILURE_MESSAGE : String := "Failed to retrieve protocol TVL."

/-- Modelled from the spec: success template of the TVL adapter. -/
def TVL_SUCCESS_MESSAGE (protocol_name tvl : String) : String :=
  "The TVL of " ++ protocol_name ++ " is " ++ tvl ++ "."

/-- Modelled from the spec: fixed no-data message of the FDV adapter. -/
def FDV_FAILURE_MESSAGE : String := "Failed to retrieve fully diluted valuation."

/-- Modelled from the spec: success template of the FDV adapter. -/
def FDV_SUCCESS_MESSAGE (coin_name fdv : String) : String :=
  "The fully diluted valuation of " ++ coin_name ++ " is " ++ fdv ++ " USD."

/-- Modelled from the spec: fixed no-data message of the market-cap
adapter. -/
def MARKET_CAP_FAILURE_MESSAGE : String := "Failed to retrieve market cap."

/-- Modelled from the spec: success template of the market-cap adapter. -/
def MARKET_CAP_SUCCESS_MESSAGE (coin_name market_cap : String) : String :=
  "The market cap of " ++ coin_name ++ " is " ++ market_cap ++ " USD."

end Config

/-- `get_wallet_balance_tool` (tools.py:184-192): call the fetcher; `if
balance is None` return the fixed no-data string; otherwise format; catch
only `requests.exceptions.RequestException`, returning the fixed API-error
string — every other exception escapes. -/
def get_wallet_balance_tool (p : Provider) (wallet_address : String)
    (blockchain : String := "ethereum") : Except PyError String :=
  match (get_wallet_balance p wallet_address blockchain).1 with
  | .error .requestException => .ok "API error occurred while retrieving wallet balance."
  | .error e => .error e
  | .ok .null => .ok "Failed to retrieve wallet balance."
  | .ok balance =>
    .ok ("Wallet balance for " ++ wallet_address ++ " on " ++ blockchain ++ ": "
      ++ balance.pyStr)

/-- `get_gas_fees_tool` (tools.py:198-206): same shape as the wallet
balance adapter, catching only `RequestException`. -/
def get_gas_fees_tool (p : Provider) (blockchain : String := "ethereum") :
    Except PyError String :=
  match (get_gas_fees p blockchain).1 with
  | .error .requestException => .ok "API error occurred while retrieving gas fees."
  | .error e => .error e
  | .ok .null => .ok "Failed to retrieve gas fees."
  | .ok fees =>
    .ok ("Current gas fees on " ++ blockchain ++ ": " ++ fees.pyStr)

/-- `get_token_metadata_tool` (tools.py:213-222): `except Exception` —
every exception raised inside is converted to the fixed API-error
string. -/
def get_token_metadata_tool (p : Provider) (token_id : String)
    (blockchain : String := "ethereum") : Except PyError String :=
  match (get_token_metadata p token_id blockchain).1 with
  | .error _ => .ok "API error occurred while retrieving token metadata."
  | .ok .null => .ok "Failed to retrieve token metadata."
  | .ok metadata =>
    .ok ("Metadata for token " ++ token_id ++ " on " ++ blockchain ++ ": "
      ++ metadata.pyStr)

/-- `get_transaction_history_tool` (tools.py:229-238): `if transactions is
None or len(transactions) == 0` return the fixed no-transactions string;
otherwise format; `except Exception` converts every raised exception
(including the `TypeError` from `len` on an unsized value) into the fixed
API-error string. -/
def get_transaction_history_tool (p : Provider) (wallet_address : String)
    (blockchain : String := "ethereum") : Except PyError String :=
  match (get_transaction_history p wallet_address blockchain).1 with
  | .error _ => .ok "API error occurred while retrieving transaction history."
  | .ok .null => .ok "No transactions found for this address."
  | .ok transactions =>
    match pyLen transactions with
    | .error _ => .ok "API error occurred while retrieving transaction history."
    | .ok 0 => .ok "No transactions found for this address."
    | .ok _ =>
      .ok ("Transaction history for " ++ wallet_address ++ " on " ++ blockchain
        ++ ": " ++ transactions.pyStr)

/-- `get_coin_price_tool` (tools.py:245-253): `if price is None` return
`Config.PRICE_FAILURE_MESSAGE`; otherwise render
`Config.PRICE_SUCCESS_MESSAGE`; catch only `RequestException`, returning
`Config.API_ERROR_MESSAGE` — every other exception escapes. -/
def get_coin_price_tool (p : Provider) (coin_name : String) : Except PyError String :=
  match (get_price p coin_name).1 with
  | .error .requestException => .ok Config.API_ERROR_MESSAGE
  | .error e => .error e
  | .ok .null => .ok Config.PRICE_FAILURE_MESSAGE
  | .ok price => .ok (Config.PRICE_SUCCESS_MESSAGE coin_name price.pyStr)

/-- `get_nft_floor_price_tool` (tools.py:259-267). -/
def get_nft_floor_price_tool (p : Provider) (nft_name : String) : Except PyError String :=
  match (get_floor_price p nft_name).1 with
  | .error .requestException => .ok Config.API_ERROR_MESSAGE
  | .error e => .error e
  | .ok .null => .ok Config.FLOOR_PRICE_FAILURE_MESSAGE
  | .ok floor_price =>
    .ok (Config.FLOOR_PRICE_SUCCESS_MESSAGE nft_name floor_price.pyStr)

/-- `get_protocol_total_value_locked_tool` (tools.py:273-281). -/
def get_protocol_total_value_locked_tool (p : Provider) (protocol_name : String) :
    Except PyError String :=
  match (get_protocol_tvl p protocol_name).1 with
  | .error .requestException => .ok Config.API_ERROR_MESSAGE
  | .error e => .error e
  | .ok .null => .ok Config.TVL_FAILURE_MESSAGE
  | .ok tvl => .ok (Config.TVL_SUCCESS_MESSAGE protocol_name tvl.pyStr)

/-- `get_fully_diluted_valuation_tool` (tools.py:287-295). -/
def get_fully_diluted_valuation_tool (p : Provider) (coin_name : String) :
    Except PyError String :=
  match (get_fdv p coin_name).1 with
  | .error .requestException => .ok Config.API_ERROR_MESSAGE
  | .error e => .error e
  | .ok .null => .ok Config.FDV_FAILURE_MESSAGE
  | .ok fdv => .ok (Config.FDV_SUCCESS_MESSAGE coin_name fdv.pyStr)

/-- `get_coin_market_cap_tool` (tools.py:301-309): catches only
`RequestException` — the `IndexError` from `get_market_cap` on an empty
markets list escapes. -/
def get_coin_market_cap_tool (p : Provider) (coin_name : String) :
    Except PyError String :=
  match (get_market_cap p coin_name).1 with
  | .error .requestException => .ok Config.API_ERROR_MESSAGE
  | .error e => .error e
  | .ok .null => .ok Config.MARKET_CAP_FAILURE_MESSAGE
  | .ok market_cap => .ok (Config.MARKET_CAP_SUCCESS_MESSAGE coin_name market_cap.pyStr)

/-- Length of the common prefix of two character lists — the length of the
longest matching block that starts at a given pair of positions. -/
def prefLen : List Char → List Char → Nat
  | x :: xs, y :: ys => if x = y then prefLen xs ys + 1 else 0
  | _, _ => 0

/-- All candidate matching blocks `(i, j, size)` between two character
lists, enumerated with `i` ascending and, within each `i`, `j` ascending —
the scan order of `difflib`'s `find_longest_match`. -/
def lmCandidates (a b : List Char) : List (Nat × Nat × Nat) :=
  ((List.range a.length).product (List.range b.length)).map
    (fun ij => (ij.1, ij.2, prefLen (a.drop ij.1) (b.drop ij.2)))

/-- Fold step keeping the first candidate of maximal size: a candidate
replaces the current best only when strictly larger, so ties resolve to
the earliest scan position. -/
def lmStep (best c : Nat × Nat × Nat) : Nat × Nat × Nat :=
  if best.2.2 < c.2.2 then c else best

/-- Model of `SequenceMatcher.find_longest_match` with an empty junk set
(the autojunk heuristic only fires for sequences of length ≥ 200, far
beyond the names matched here): the longest matching block, ties resolved
to the earliest start in `a` and then in `b`, exactly the documented
contract of `difflib`. -/
def longestMatch (a b : List Char) : Nat × Nat × Nat :=
  (lmCandidates a b).foldl lmStep (0, 0, 0)

/-- The result of folding `lmStep` is the initial accumulator or one of
the list elements. -/
theorem foldl_lmStep_mem (l : List (Nat × Nat × Nat)) (init : Nat × Nat × Nat) :
    l.foldl lmStep init = init ∨ l.foldl lmStep init ∈ l := by
  induction l generalizing init with
  | nil => exact Or.inl rfl
  | cons x xs ih =>
    rw [List.foldl_cons]
    rcases ih (lmStep init x) with h | h
    · rw [h]
      unfold lmStep
      split
      · exact Or.inr (List.mem_cons_self _ _)
      · exact Or.inl rfl
    · exact Or.inr (List.mem_cons_of_mem _ h)

/-- The block found by `longestMatch` starts inside both sequences unless
it is the trivial empty block. -/
theorem longestMatch_bounds (a b : List Char) :
    longestMatch a b = (0, 0, 0) ∨
      ((longestMatch a b).1 < a.length ∧ (longestMatch a b).2.1 < b.length) := by
  rcases foldl_lmStep_mem (lmCandidates a b) (0, 0, 0) with h | h
  · exact Or.inl h
  · right
    obtain ⟨ij, hij, hmap⟩ := List.mem_map.mp h
    obtain ⟨hi, hj⟩ := List.mem_product.mp hij
    unfold longestMatch
    rw [← hmap]
    exact ⟨List.mem_range.mp hi, List.mem_range.mp hj⟩

/-- Model of the total number `M` of matched characters computed by
`SequenceMatcher.get_matching_blocks`: recursively take the longest
matching block and recurse on the pieces to its left and to its right
(the queue-based implementation in `difflib` collects exactly these
blocks; merging adjacent blocks afterwards does not change the total). -/
def matchingTotal (a b : List Char) : Nat :=
  if h : 0 < (longestMatch a b).2.2 then
    matchingTotal (a.take (longestMatch a b).1) (b.take (longestMatch a b).2.1)
      + (longestMatch a b).2.2
      + matchingTotal (a.drop ((longestMatch a b).1 + (longestMatch a b).2.2))
          (b.drop ((longestMatch a b).2.1 + (longestMatch a b).2.2))
  else 0
termination_by a.length + b.length
decreasing_by
  · rcases longestMatch_bounds a b with h0 | ⟨hi, hj⟩
    · rw [h0] at h
      exact absurd h (by simp)
    · simp only [List.length_take]
      omega
  · rcases longestMatch_bounds a b with h0 | ⟨hi, hj⟩
    · rw [h0] at h
      exact absurd h (by simp)
    · simp only [List.length_drop]
      omega

/-- Unfolding equation of `matchingTotal` at a point where the longest
match is known and non-empty. -/
theorem matchingTotal_step (a b : List Char) (i j k : Nat)
    (hm : longestMatch a b = (i, j, k)) (hk : 0 < k) :
    matchingTotal a b =
      matchingTotal (a.take i) (b.take j) + k
        + matchingTotal (a.drop (i + k)) (b.drop (j + k)) := by
  rw [matchingTotal, hm]
  simp [hk]

/-- Unfolding equation of `matchingTotal` at a point with no non-empty
matching block. -/
theorem matchingTotal_zero (a b : List Char) (h : (longestMatch a b).2.2 = 0) :
    matchingTotal a b = 0 := by
  rw [matchingTotal]
  simp [h]

/-- `difflib`'s `_calculate_ratio`: `2.0 * matches / length`, and `1.0`
when both sequences are empty.  The floating-point arithmetic is modelled
by exact rationals; for the short names compared here the double results
order identically. -/
def calcScore (m t : Nat) : ℚ :=
  if t ≠ 0 then 2 * (m : ℚ) / (t : ℚ) else 1

/-- `SequenceMatcher(None, a, b).ratio()` on two strings. -/
def smScore (a b : String) : ℚ :=
  calcScore (matchingTotal a.data b.data) (a.data.length + b.data.length)

/-- Python `max(range(len(sim)), key=sim.__getitem__)` (tools.py:69): the
index of the first maximal element; `none` models the `ValueError` raised
on an empty range. -/
def maxIdxFirst (l : List ℚ) : Option Nat :=
  match l with
  | [] => none
  | _ :: _ =>
    some ((List.range l.length).foldl
      (fun best i => if l.getD best 0 < l.getD i 0 then i else best) 0)

/-- Python `l[-n:]`. -/
def takeLast (n : Nat) (l : List Nat) : List Nat := l.drop (l.length - n)

/-- Insertion into a list sorted ascending by score, placing the new
element after existing equal scores. -/
def sortedInsert (x : Nat × ℚ) : List (Nat × ℚ) → List (Nat × ℚ)
  | [] => [x]
  | y :: ys => if y.2 ≤ x.2 then y :: sortedInsert x ys else x :: y :: ys

/-- Ascending argsort of a score vector, modelling
`similarity_scores.argsort()[0]` (tools.py:66) on the single row of cosine
similarities. -/
def argsortAsc (scores : List ℚ) : List Nat :=
  (((List.range scores.length).zip scores).foldl
    (fun acc x => sortedInsert x acc) []).map Prod.fst

/-- The second, re-ranking stage of `get_most_similar` (tools.py:67-70):
`res = [data[item] for item in top_indices]`, score each by
`SequenceMatcher(None, text, item).ratio()`, return the candidate at the
first maximal score. -/
def rerank (text : String) (data : List String) (top_indices : List Nat) : Option String :=
  let res := top_indices.map (fun i => data.getD i "")
  let sim := res.map (fun item => smScore text item)
  (maxIdxFirst sim).map (fun i => res.getD i "")

/-- `get_most_similar(text, data)` (tools.py:59-70).  The parameter
`scores` abstracts the TF-IDF cosine-similarity row
`cosine_similarity(text_vector, sentence_vectors)[0]` — floating-point
vectors with transcendental idf weights, so the narrowing stage is
quantified over every possible score vector rather than embedded
numerically.  Everything downstream is embedded exactly:
`argsort()[0][-20:][::-1]` narrows to the 20 highest-scoring candidates,
which are then re-ranked by character-sequence similarity. -/
def get_most_similar (scores : List ℚ) (text : String) (data : List String) :
    Option String :=
  rerank text data ((takeLast 20 (argsortAsc scores)).reverse)

/-- A provider with every endpoint down — every GET yields a transport
failure. -/
def pDown : Provider where
  search := fun _ => .httpError
  simplePrice := fun _ => .httpError
  nfts := fun _ => .httpError
  coins := fun _ => .httpError
  coinsMarkets := fun _ => .httpError
  protocols := .httpError
  tvl := fun _ => .httpError
  walletBalance := fun _ _ => .httpError
  transactions := fun _ _ => .httpError
  gasFees := fun _ => .httpError
  tokenMetadata := fun _ _ => .httpError

/-- The search response `{"coins": [{"id": "bitcoin"}], "nfts": []}` of the
spec's Name-Resolver example. -/
def searchBitcoin : Json :=
  .obj [("coins", .arr [.obj [("id", .str "bitcoin")]]), ("nfts", .arr [])]

/-- A provider resolving `"bitcoin"` and pricing it at 64000 USD:
`/simple/price` returns `{"bitcoin": {"usd": 64000}}`. -/
def pBitcoin : Provider :=
  { pDown with
    search := fun _ => .ok searchBitcoin
    simplePrice := fun _ => .ok (.obj [("bitcoin", .obj [("usd", .num 64000)])]) }

/-- A provider whose search yields empty candidate lists for every
query — every name is unresolvable. -/
def pNoCoin : Provider :=
  { pDown with
    search := fun _ => .ok (.obj [("coins", .arr []), ("nfts", .arr [])]) }

/-- A provider whose search response has no `'coins'` key at all (only an
empty `'nfts'` list). -/
def pAbsent : Provider :=
  { pDown with search := fun _ => .ok (.obj [("nfts", .arr [])]) }

/-- C3 counterexample: the claim says `get_coingecko_id` returns `None`
(rather than raising) when the list for the requested kind is absent from
the response; but for kind `"coin"` the code subscripts `data['coins']`
directly, so on the response `{"nfts": []}` it raises `KeyError('coins')`
instead of returning `None`. -/
theorem C3_counterexample :
    (get_coingecko_id pAbsent "bitcoin" "coin").1 = .error (.keyError "coins") ∧
      (get_coingecko_id pAbsent "bitcoin" "coin").1 ≠ .ok .null := by
  refine ⟨rfl, fun hcon => ?_⟩
  rw [show (get_coingecko_id pAbsent "bitcoin" "coin").1
        = .error (.keyError "coins") from rfl] at hcon
  exact Except.noConfusion hcon

/-- C3 (amended): for every search response, `get_coingecko_id` returns
the `'id'` field of the first entry of the list matching the requested
kind when that list is non-empty, and returns `None` when it is empty;
for kind `"nft"` an absent list also yields `None`, but for kind `"coin"`
an absent `'coins'` key raises `KeyError` rather than returning `None`;
on `{"coins": [{"id": "bitcoin"}], "nfts": []}` it returns `"bitcoin"`
for kind coin and `None` for kind nft. -/
theorem C3_name_resolver :
    (∀ (p : Provider) (text : String) (d e0 : Json) (rest : List Json) (idv : Json),
        p.search text = .ok d →
        pyGetItem d "coins" = .ok (.arr (e0 :: rest)) →
        pyGetItem e0 "id" = .ok idv →
        (get_coingecko_id p text "coin").1 = .ok idv) ∧
    (∀ (p : Provider) (text : String) (d : Json),
        p.search text = .ok d →
        pyGetItem d "coins" = .ok (.arr []) →
        (get_coingecko_id p text "coin").1 = .ok .null) ∧
    (∀ (p : Provider) (text : String) (d e0 : Json) (rest : List Json) (idv : Json),
        p.search text = .ok d →
        pyGet d "nfts" = .ok (.arr (e0 :: rest)) →
        pyGetItem e0 "id" = .ok idv →
        (get_coingecko_id p text "nft").1 = .ok idv) ∧
    (∀ (p : Provider) (text : String) (d : Json),
        p.search text = .ok d →
        (pyGet d "nfts" = .ok (.arr []) ∨ pyGet d "nfts" = .ok .null) →
        (get_coingecko_id p text "nft").1 = .ok .null) ∧
    (∀ (p : Provider) (text : String) (d : Json),
        p.search text = .ok d →
        pyGetItem d "coins" = .error (.keyError "coins") →
        (get_coingecko_id p text "coin").1 = .error (.keyError "coins")) ∧
    ((get_coingecko_id pBitcoin "bitcoin" "coin").1 = .ok (.str "bitcoin") ∧
      (get_coingecko_id pBitcoin "bitcoin" "nft").1 = .ok .null) := by
  refine ⟨?_, ?_, ?_, ?_, ?_, rfl, rfl⟩
  · intro p text d e0 rest idv hs hc hid
    simp [get_coingecko_id, hs, hc, hid, Json.truthy, pyIndex]
  · intro p text d hs hc
    simp [get_coingecko_id, hs, hc, Json.truthy]
  · intro p text d e0 rest idv hs hn hid
    simp [get_coingecko_id, hs, hn, hid, Json.truthy, pyIndex]
  · intro p text d hs hn
    rcases hn with hn | hn <;> simp [get_coingecko_id, hs, hn, Json.truthy]
  · intro p text d hs hc
    simp [get_coingecko_id, hs, hc]

/-- C3 witness: the amended resolver contract instantiated on the
`pBitcoin` provider for a non-empty coin list and an empty nft list. -/
theorem C3_name_resolver_witness :
    (get_coingecko_id pBitcoin "bitcoin" "coin").1 = .ok (.str "bitcoin") ∧
      (get_coingecko_id pBitcoin "please" "nft").1 = .ok .null :=
  ⟨C3_name_resolver.1 pBitcoin "bitcoin" searchBitcoin (.obj [("id", .str "bitcoin")])
      [] (.str "bitcoin") rfl rfl rfl,
    C3_name_resolver.2.2.2.1 pBitcoin "please" searchBitcoin rfl (Or.inl rfl)⟩

/-- C6: with any 2xx search response, calling `get_coingecko_id` with a
kind other than `"coin"` or `"nft"` raises `ValueError` (the
invalid-argument error), and for an unsupported kind the resolver never
returns the not-found `None` result, whatever the provider does. -/
theorem C6_invalid_kind :
    (∀ (p : Provider) (text type : String) (d : Json),
        p.search text = .ok d → type ≠ "coin" → type ≠ "nft" →
        (get_coingecko_id p text type).1 = .error (.valueError "Invalid type specified")) ∧
    (∀ (p : Provider) (text type : String),
        type ≠ "coin" → type ≠ "nft" →
        (get_coingecko_id p text type).1 ≠ .ok .null) := by
  constructor
  · intro p text type d hs hc hn
    simp [get_coingecko_id, hs, hc, hn]
  · intro p text type hc hn hcon
    rcases hres : p.search text with d | _
    · rw [show (get_coingecko_id p text type).1
            = .error (.valueError "Invalid type specified") by
          simp [get_coingecko_id, hres, hc, hn]] at hcon
      exact Except.noConfusion hcon
    · rw [show (get_coingecko_id p text type).1 = .error .requestException by
          simp [get_coingecko_id, hres]] at hcon
      exact Except.noConfusion hcon

/-- C6 witness: the invalid-argument failure at the concrete kind
`"token"` on the `pBitcoin` provider. -/
theorem C6_invalid_kind_witness :
    (get_coingecko_id pBitcoin "bitcoin" "token").1 =
      .error (.valueError "Invalid type specified") :=
  C6_invalid_kind.1 pBitcoin "bitcoin" "token" searchBitcoin rfl
    (by decide) (by decide)

/-- C7: end-to-end: with the search endpoint resolving `"bitcoin"` and the
pricing endpoint returning `{"bitcoin": {"usd": 64000}}`,
`get_coin_price_tool("bitcoin")` returns the formatted success message,
which contains the substrings `"bitcoin"` and `"64000"`; with an
unresolvable name (empty search result) it returns the fixed price-failure
message. -/
theorem C7_price_end_to_end :
    get_coin_price_tool pBitcoin "bitcoin" =
        .ok (Config.PRICE_SUCCESS_MESSAGE "bitcoin" "64000") ∧
      "bitcoin".data <:+: (Config.PRICE_SUCCESS_MESSAGE "bitcoin" "64000").data ∧
      "64000".data <:+: (Config.PRICE_SUCCESS_MESSAGE "bitcoin" "64000").data ∧
      get_coin_price_tool pNoCoin "bitcoin" = .ok Config.PRICE_FAILURE_MESSAGE :=
  ⟨rfl, by decide, by decide, rfl⟩

/-- A provider that resolves `"bitcoin"` but whose `/coins/markets`
endpoint returns the empty JSON list. -/
def pMarketsEmpty : Provider :=
  { pDown with
    search := fun _ => .ok searchBitcoin
    coinsMarkets := fun _ => .ok (.arr []) }

/-- C10: when the coin name resolves but the markets endpoint returns an
empty JSON list, `get_market_cap` raises `IndexError`
(`response.json()[0]`), and `get_coin_market_cap_tool` — whose handler
covers only `RequestException` — lets it escape instead of converting it
to a user-facing message. -/
theorem C10_market_cap_index_error :
    ∀ (p : Provider) (coin : String) (cid : Json) (t : List Request),
      get_coingecko_id p coin "coin" = (.ok cid, t) →
      cid.truthy = true →
      p.coinsMarkets cid = .ok (.arr []) →
      (get_market_cap p coin).1 = .error .indexError ∧
        get_coin_market_cap_tool p coin = .error .indexError := by
  intro p coin cid t hres htr hm
  have hf : (get_market_cap p coin).1 = .error .indexError := by
    unfold get_market_cap
    rw [hres]
    simp [htr, hm, pyIndex, Except.bind]
  refine ⟨hf, ?_⟩
  unfold get_coin_market_cap_tool
  rw [hf]

/-- C10 witness: the escape at the concrete provider whose markets
endpoint returns `[]`. -/
theorem C10_market_cap_index_error_witness :
    (get_market_cap pMarketsEmpty "bitcoin").1 = .error .indexError ∧
      get_coin_market_cap_tool pMarketsEmpty "bitcoin" = .error .indexError :=
  C10_market_cap_index_error pMarketsEmpty "bitcoin" (.str "bitcoin")
    [.search "bitcoin"] rfl rfl rfl

/-- The resolver's not-found path for coins: an empty `'coins'` list in
the search response yields `None`, with the search request as the only
traffic. -/
theorem resolver_coin_empty (p : Provider) (text : String) (d : Json)
    (hs : p.search text = .ok d) (hc : pyGetItem d "coins" = .ok (.arr [])) :
    get_coingecko_id p text "coin" = (.ok .null, [.search text]) := by
  simp [get_coingecko_id, hs, hc, Json.truthy]

/-- The resolver's not-found path for NFTs: an empty or absent `'nfts'`
list in the search response yields `None`. -/
theorem resolver_nft_empty (p : Provider) (text : String) (d : Json)
    (hs : p.search text = .ok d)
    (hn : pyGet d "nfts" = .ok (.arr []) ∨ pyGet d "nfts" = .ok .null) :
    get_coingecko_id p text "nft" = (.ok .null, [.search text]) := by
  rcases hn with hn | hn <;> simp [get_coingecko_id, hs, hn, Json.truthy]

/-- The resolver's failure path for coins: an absent `'coins'` key in the
search response raises `KeyError('coins')` (the coin branch subscripts
`data['coins']` directly). -/
theorem resolver_coin_keyerror (p : Provider) (text : String) (d : Json)
    (hs : p.search text = .ok d)
    (hc : pyGetItem d "coins" = .error (.keyError "coins")) :
    get_coingecko_id p text "coin" = (.error (.keyError "coins"), [.search text]) := by
  simp [get_coingecko_id, hs, hc]

/-- C2 counterexample: the claim covers "empty/absent" search results, but
when the `'coins'` key is absent (provider `pAbsent` answers
`{"nfts": []}`), `get_price` raises `KeyError('coins')` instead of
returning `None`, and the exception escapes `get_coin_price_tool` (whose
handler covers only `RequestException`). -/
theorem C2_counterexample :
    (get_price pAbsent "bitcoin").1 = .error (.keyError "coins") ∧
      (get_price pAbsent "bitcoin").1 ≠ .ok .null ∧
      get_coin_price_tool pAbsent "bitcoin" = .error (.keyError "coins") := by
  refine ⟨rfl, fun hcon => ?_, rfl⟩
  rw [show (get_price pAbsent "bitcoin").1 = .error (.keyError "coins") from rfl] at hcon
  exact Except.noConfusion hcon

/-- C2 (amended): for every lookup-by-name fetcher, an *empty* search
result list for the requested kind (for the NFT kind, empty or absent)
makes the fetcher return `None` with no HTTP request to its downstream
data endpoint — the request trace is exactly the lookup traffic — and the
corresponding adapter returns its fixed no-data message; however, for each
of the coin-kind fetchers (`get_price`, `get_fdv`, `get_market_cap`,
`get_protocol_tvl`) an *absent* `'coins'` key raises `KeyError` instead of
returning `None`, and the exception escapes the corresponding adapter
(whose handler covers only `RequestException`). -/
theorem C2_lookup_no_data :
    (∀ (p : Provider) (name : String) (d : Json),
        p.search name = .ok d → pyGetItem d "coins" = .ok (.arr []) →
        get_price p name = (.ok .null, [.search name]) ∧
          get_coin_price_tool p name = .ok Config.PRICE_FAILURE_MESSAGE) ∧
    (∀ (p : Provider) (name : String) (d : Json),
        p.search name = .ok d → pyGetItem d "coins" = .ok (.arr []) →
        get_fdv p name = (.ok .null, [.search name]) ∧
          get_fully_diluted_valuation_tool p name = .ok Config.FDV_FAILURE_MESSAGE) ∧
    (∀ (p : Provider) (name : String) (d : Json),
        p.search name = .ok d → pyGetItem d "coins" = .ok (.arr []) →
        get_market_cap p name = (.ok .null, [.search name]) ∧
          get_coin_market_cap_tool p name = .ok Config.MARKET_CAP_FAILURE_MESSAGE) ∧
    (∀ (p : Provider) (name : String) (d : Json),
        p.search name = .ok d →
        (pyGet d "nfts" = .ok (.arr []) ∨ pyGet d "nfts" = .ok .null) →
        get_floor_price p name = (.ok .null, [.search name]) ∧
          get_nft_floor_price_tool p name = .ok Config.FLOOR_PRICE_FAILURE_MESSAGE) ∧
    (∀ (p : Provider) (name : String) (d : Json) (slugs geckos : List Json),
        get_protocols_list p = (.ok (slugs, geckos), [.protocolsReq]) →
        p.search name = .ok d → pyGetItem d "coins" = .ok (.arr []) →
        get_protocol_tvl p name = (.ok .null, [.protocolsReq, .search name]) ∧
          get_protocol_total_value_locked_tool p name = .ok Config.TVL_FAILURE_MESSAGE) ∧
    (∀ (p : Provider) (name : String) (d : Json),
        p.search name = .ok d → pyGetItem d "coins" = .error (.keyError "coins") →
        (get_price p name).1 = .error (.keyError "coins") ∧
          get_coin_price_tool p name = .error (.keyError "coins")) ∧
    (∀ (p : Provider) (name : String) (d : Json),
        p.search name = .ok d → pyGetItem d "coins" = .error (.keyError "coins") →
        (get_fdv p name).1 = .error (.keyError "coins") ∧
          get_fully_diluted_valuation_tool p name = .error (.keyError "coins")) ∧
    (∀ (p : Provider) (name : String) (d : Json),
        p.search name = .ok d → pyGetItem d "coins" = .error (.keyError "coins") →
        (get_market_cap p name).1 = .error (.keyError "coins") ∧
          get_coin_market_cap_tool p name = .error (.keyError "coins")) ∧
    (∀ (p : Provider) (name : String) (d : Json) (slugs geckos : List Json),
        get_protocols_list p = (.ok (slugs, geckos), [.protocolsReq]) →
        p.search name = .ok d → pyGetItem d "coins" = .error (.keyError "coins") →
        (get_protocol_tvl p name).1 = .error (.keyError "coins") ∧
          get_protocol_total_value_locked_tool p name = .error (.keyError "coins")) := by
  refine ⟨?_, ?_, ?_, ?_, ?_, ?_, ?_, ?_, ?_⟩
  · intro p name d hs hc
    have hfetch : get_price p name = (.ok .null, [.search name]) := by
      unfold get_price
      rw [resolver_coin_empty p name d hs hc]
      simp [Json.truthy]
    refine ⟨hfetch, ?_⟩
    unfold get_coin_price_tool
    rw [hfetch]
  · intro p name d hs hc
    have hfetch : get_fdv p name = (.ok .null, [.search name]) := by
      unfold get_fdv
      rw [resolver_coin_empty p name d hs hc]
      simp [Json.truthy]
    refine ⟨hfetch, ?_⟩
    unfold get_fully_diluted_valuation_tool
    rw [hfetch]
  · intro p name d hs hc
    have hfetch : get_market_cap p name = (.ok .null, [.search name]) := by
      unfold get_market_cap
      rw [resolver_coin_empty p name d hs hc]
      simp [Json.truthy]
    refine ⟨hfetch, ?_⟩
    unfold get_coin_market_cap_tool
    rw [hfetch]
  · intro p name d hs hn
    have hfetch : get_floor_price p name = (.ok .null, [.search name]) := by
      unfold get_floor_price
      rw [resolver_nft_empty p name d hs hn]
      simp [Json.truthy]
    refine ⟨hfetch, ?_⟩
    unfold get_nft_floor_price_tool
    rw [hfetch]
  · intro p name d slugs geckos hprot hs hc
    have hfetch : get_protocol_tvl p name = (.ok .null, [.protocolsReq, .search name]) := by
      unfold get_protocol_tvl
      rw [hprot, resolver_coin_empty p name d hs hc]
      simp [Json.truthy]
    refine ⟨hfetch, ?_⟩
    unfold get_protocol_total_value_locked_tool
    rw [hfetch]
  · intro p name d hs hc
    have hfetch : (get_price p name).1 = .error (.keyError "coins") := by
      unfold get_price
      rw [resolver_coin_keyerror p name d hs hc]
    refine ⟨hfetch, ?_⟩
    unfold get_coin_price_tool
    rw [hfetch]
  · intro p name d hs hc
    have hfetch : (get_fdv p name).1 = .error (.keyError "coins") := by
      unfold get_fdv
      rw [resolver_coin_keyerror p name d hs hc]
    refine ⟨hfetch, ?_⟩
    unfold get_fully_diluted_valuation_tool
    rw [hfetch]
  · intro p name d hs hc
    have hfetch : (get_market_cap p name).1 = .error (.keyError "coins") := by
      unfold get_market_cap
      rw [resolver_coin_keyerror p name d hs hc]
    refine ⟨hfetch, ?_⟩
    unfold get_coin_market_cap_tool
    rw [hfetch]
  · intro p name d slugs geckos hprot hs hc
    have hfetch : (get_protocol_tvl p name).1 = .error (.keyError "coins") := by
      unfold get_protocol_tvl
      rw [hprot, resolver_coin_keyerror p name d hs hc]
    refine ⟨hfetch, ?_⟩
    unfold get_protocol_total_value_locked_tool
    rw [hfetch]

/-- C2 witness: the price fetcher's no-data path instantiated at the
provider whose search yields empty candidate lists. -/
theorem C2_lookup_no_data_witness :
    get_price pNoCoin "nosuchcoin" = (.ok .null, [.search "nosuchcoin"]) ∧
      get_coin_price_tool pNoCoin "nosuchcoin" = .ok Config.PRICE_FAILURE_MESSAGE :=
  C2_lookup_no_data.1 pNoCoin "nosuchcoin"
    (.obj [("coins", .arr []), ("nfts", .arr [])]) rfl rfl

/-- A provider whose protocol list matches the resolved ID `"aave"` with
an *empty* slug, and whose TVL endpoint would answer if queried. -/
def pFalsySlug : Provider :=
  { pDown with
    protocols := .ok (.arr [.obj [("slug", .str ""), ("gecko_id", .str "aave")]])
    search := fun _ =>
      .ok (.obj [("coins", .arr [.obj [("id", .str "aave")]]), ("nfts", .arr [])])
    tvl := fun _ => .ok (.num 1) }

/-- The spec's protocol-TVL example provider: protocol list
`[{"slug": "aave", "gecko_id": "aave"}]`, search resolving `"aave"`, and a
TVL endpoint answering `42`. -/
def pAave : Provider :=
  { pDown with
    protocols := .ok (.arr [.obj [("slug", .str "aave"), ("gecko_id", .str "aave")]])
    search := fun _ =>
      .ok (.obj [("coins", .arr [.obj [("id", .str "aave")]]), ("nfts", .arr [])])
    tvl := fun _ => .ok (.num 42) }

/-- C4 counterexample: on provider `pFalsySlug` the resolution succeeds
(`"aave"`) and a list entry's `gecko_id` matches it, so the claim says the
TVL endpoint is queried for the matched slug and its payload returned; but
because the code tests the matched slug for truthiness
(`if not protocol_id`), the empty slug makes `get_protocol_tvl` return
`None` — the trace shows no request to the TVL endpoint. -/
theorem C4_counterexample :
    get_protocol_tvl pFalsySlug "aave" = (.ok .null, [.protocolsReq, .search "aave"]) ∧
      get_protocols_list pFalsySlug = (.ok ([.str ""], [.str "aave"]), [.protocolsReq]) ∧
      ([Json.str ""].zip [Json.str "aave"]).find? (fun ij => Json.beq ij.2 (.str "aave"))
        = some (.str "", .str "aave") :=
  ⟨rfl, rfl, rfl⟩

/-- C4 (amended): `get_protocol_tvl` fetches the full protocol list,
resolves the protocol name to a coin ID via the name resolver, and selects
the list entry whose `gecko_id` equals the resolved ID; if the resolution
yields no ID, no entry matches, or the matched slug is falsy (e.g. the
empty string), it returns `None` without issuing a request to the TVL
endpoint; otherwise — when the matched slug is truthy — it GETs the TVL
endpoint for the matched slug and returns the raw JSON payload. -/
theorem C4_protocol_tvl :
    (∀ (p : Provider) (name : String) (slugs geckos : List Json)
        (tag slug g payload : Json),
        get_protocols_list p = (.ok (slugs, geckos), [.protocolsReq]) →
        get_coingecko_id p name "coin" = (.ok tag, [.search name]) →
        tag.truthy = true →
        (slugs.zip geckos).find? (fun ij => Json.beq ij.2 tag) = some (slug, g) →
        slug.truthy = true →
        p.tvl slug = .ok payload →
        get_protocol_tvl p name =
          (.ok payload, [.protocolsReq, .search name, .tvlReq slug])) ∧
    (∀ (p : Provider) (name : String) (slugs geckos : List Json) (tag : Json),
        get_protocols_list p = (.ok (slugs, geckos), [.protocolsReq]) →
        get_coingecko_id p name "coin" = (.ok tag, [.search name]) →
        tag.truthy = true →
        (slugs.zip geckos).find? (fun ij => Json.beq ij.2 tag) = none →
        get_protocol_tvl p name = (.ok .null, [.protocolsReq, .search name])) ∧
    (∀ (p : Provider) (name : String) (slugs geckos : List Json) (tag : Json),
        get_protocols_list p = (.ok (slugs, geckos), [.protocolsReq]) →
        get_coingecko_id p name "coin" = (.ok tag, [.search name]) →
        tag.truthy = false →
        get_protocol_tvl p name = (.ok .null, [.protocolsReq, .search name])) ∧
    (∀ (p : Provider) (name : String) (slugs geckos : List Json) (tag slug g : Json),
        get_protocols_list p = (.ok (slugs, geckos), [.protocolsReq]) →
        get_coingecko_id p name "coin" = (.ok tag, [.search name]) →
        tag.truthy = true →
        (slugs.zip geckos).find? (fun ij => Json.beq ij.2 tag) = some (slug, g) →
        slug.truthy = false →
        get_protocol_tvl p name = (.ok .null, [.protocolsReq, .search name])) := by
  refine ⟨?_, ?_, ?_, ?_⟩
  · intro p name slugs geckos tag slug g payload hprot hres htag hfind hslug htvl
    unfold get_protocol_tvl
    rw [hprot, hres]
    simp [htag, hfind, hslug, htvl]
  · intro p name slugs geckos tag hprot hres htag hfind
    unfold get_protocol_tvl
    rw [hprot, hres]
    simp [htag, hfind]
  · intro p name slugs geckos tag hprot hres htag
    unfold get_protocol_tvl
    rw [hprot, hres]
    simp [htag]
  · intro p name slugs geckos tag slug g hprot hres htag hfind hslug
    unfold get_protocol_tvl
    rw [hprot, hres]
    simp [htag, hfind, hslug]

/-- C4 witness: the spec's example — protocol list
`[{"slug": "aave", "gecko_id": "aave"}]`, resolved coin ID `"aave"` — the
matched slug is `"aave"`, the TVL endpoint is queried for it and its
payload returned. -/
theorem C4_protocol_tvl_witness :
    get_protocol_tvl pAave "aave" =
      (.ok (.num 42), [.protocolsReq, .search "aave", .tvlReq (.str "aave")]) :=
  C4_protocol_tvl.1 pAave "aave" [.str "aave"] [.str "aave"]
    (.str "aave") (.str "aave") (.str "aave") (.num 42)
    rfl rfl rfl rfl rfl rfl

/-- The formatted transaction-history sentence is never the fixed
no-transactions message (their first characters differ). -/
theorem tx_msg_ne (x : String) :
    "Transaction history for " ++ x ≠ "No transactions found for this address." := by
  intro h
  have h2 := congrArg String.data h
  rw [String.data_append] at h2
  have h3 := congrArg List.head? h2
  rw [List.head?_append_of_ne_nil _ (by decide)] at h3
  revert h3
  decide

/-- A provider answering one transaction for every wallet. -/
def pTx : Provider :=
  { pDown with
    transactions := fun _ _ => .ok (.obj [("transactions", .arr [.num 1])]) }

/-- C9: `get_transaction_history_tool` returns the fixed
`"No transactions found for this address."` message exactly when the
fetched `transactions` field is `None` or the empty list; a non-empty list
produces the formatted sentence embedding the wallet address, blockchain
and transactions; and every exception raised inside (the handler is a
broad `except Exception`) is converted to the fixed API-error message
rather than raised. -/
theorem C9_transaction_history_tool :
    (∀ (p : Provider) (w b : String) (body t : Json),
        p.transactions b w = .ok body →
        pyGetItem body "transactions" = .ok t →
        (t = .null ∨ ∃ l, t = .arr l) →
        (get_transaction_history_tool p w b
            = .ok "No transactions found for this address."
          ↔ (t = .null ∨ t = .arr []))) ∧
    (∀ (p : Provider) (w b : String) (body : Json) (l : List Json),
        p.transactions b w = .ok body →
        pyGetItem body "transactions" = .ok (.arr l) → l ≠ [] →
        get_transaction_history_tool p w b =
          .ok ("Transaction history for " ++ w ++ " on " ++ b ++ ": "
            ++ (Json.arr l).pyStr)) ∧
    (∀ (p : Provider) (w b : String) (e : PyError),
        (get_transaction_history p w b).1 = .error e →
        get_transaction_history_tool p w b =
          .ok "API error occurred while retrieving transaction history.") := by
  have hfetch : ∀ (p : Provider) (w b : String) (body t : Json),
      p.transactions b w = .ok body → pyGetItem body "transactions" = .ok t →
      (get_transaction_history p w b).1 = .ok t := by
    intro p w b body t htx hget
    unfold get_transaction_history
    rw [htx]
    simpa using hget
  have hformat : ∀ (p : Provider) (w b : String) (body : Json) (x : Json) (xs : List Json),
      p.transactions b w = .ok body →
      pyGetItem body "transactions" = .ok (.arr (x :: xs)) →
      get_transaction_history_tool p w b =
        .ok ("Transaction history for " ++ w ++ " on " ++ b ++ ": "
          ++ (Json.arr (x :: xs)).pyStr) := by
    intro p w b body x xs htx hget
    unfold get_transaction_history_tool
    rw [hfetch p w b body (.arr (x :: xs)) htx hget]
    simp [pyLen]
  refine ⟨?_, ?_, ?_⟩
  · intro p w b body t htx hget hshape
    rcases hshape with rfl | ⟨l, rfl⟩
    · constructor
      · intro _
        exact Or.inl rfl
      · intro _
        unfold get_transaction_history_tool
        rw [hfetch p w b body .null htx hget]
    · cases l with
      | nil =>
        constructor
        · intro _
          exact Or.inr rfl
        · intro _
          unfold get_transaction_history_tool
          rw [hfetch p w b body (.arr []) htx hget]
          simp [pyLen]
      | cons x xs =>
        constructor
        · intro hmsg
          rw [hformat p w b body x xs htx hget] at hmsg
          simp only [Except.ok.injEq] at hmsg
          rw [String.append_assoc, String.append_assoc, String.append_assoc] at hmsg
          exact absurd hmsg (tx_msg_ne _)
        · intro hor
          rcases hor with h | h
          · exact absurd h (by simp)
          · exact absurd h (by simp)
  · intro p w b body l htx hget hne
    cases l with
    | nil => exact absurd rfl hne
    | cons x xs => exact hformat p w b body x xs htx hget
  · intro p w b e herr
    unfold get_transaction_history_tool
    rw [herr]

/-- C9 witness: the formatted sentence at a concrete provider answering a
single transaction. -/
theorem C9_transaction_history_tool_witness :
    get_transaction_history_tool pTx "0xabc" "ethereum" =
      .ok ("Transaction history for " ++ "0xabc" ++ " on " ++ "ethereum" ++ ": "
        ++ (Json.arr [.num 1]).pyStr) :=
  C9_transaction_history_tool.2.1 pTx "0xabc" "ethereum"
    (.obj [("transactions", .arr [.num 1])]) [.num 1] rfl rfl (by simp)

/-- C8: every tool adapter is deterministic — its output is a function of
its input arguments and the provider's responses alone.  Stated as
noninterference: two invocations against providers that agree on the
endpoints the adapter consults (identical provider responses) return
identical output, whatever the rest of the environment looks like; the
adapters read no hidden state and no randomness. -/
theorem C8_determinism :
    (∀ (p q : Provider) (w b : String), p.walletBalance = q.walletBalance →
        get_wallet_balance_tool p w b = get_wallet_balance_tool q w b) ∧
    (∀ (p q : Provider) (b : String), p.gasFees = q.gasFees →
        get_gas_fees_tool p b = get_gas_fees_tool q b) ∧
    (∀ (p q : Provider) (tk b : String), p.tokenMetadata = q.tokenMetadata →
        get_token_metadata_tool p tk b = get_token_metadata_tool q tk b) ∧
    (∀ (p q : Provider) (w b : String), p.transactions = q.transactions →
        get_transaction_history_tool p w b = get_transaction_history_tool q w b) ∧
    (∀ (p q : Provider) (c : String), p.search = q.search →
        p.simplePrice = q.simplePrice →
        get_coin_price_tool p c = get_coin_price_tool q c) ∧
    (∀ (p q : Provider) (n : String), p.search = q.search → p.nfts = q.nfts →
        get_nft_floor_price_tool p n = get_nft_floor_price_tool q n) ∧
    (∀ (p q : Provider) (n : String), p.protocols = q.protocols →
        p.search = q.search → p.tvl = q.tvl →
        get_protocol_total_value_locked_tool p n
          = get_protocol_total_value_locked_tool q n) ∧
    (∀ (p q : Provider) (c : String), p.search = q.search → p.coins = q.coins →
        get_fully_diluted_valuation_tool p c = get_fully_diluted_valuation_tool q c) ∧
    (∀ (p q : Provider) (c : String), p.search = q.search →
        p.coinsMarkets = q.coinsMarkets →
        get_coin_market_cap_tool p c = get_coin_market_cap_tool q c) := by
  refine ⟨?_, ?_, ?_, ?_, ?_, ?_, ?_, ?_, ?_⟩
  · intro p q w b h
    unfold get_wallet_balance_tool get_wallet_balance
    rw [h]
  · intro p q b h
    unfold get_gas_fees_tool get_gas_fees
    rw [h]
  · intro p q tk b h
    unfold get_token_metadata_tool get_token_metadata
    rw [h]
  · intro p q w b h
    unfold get_transaction_history_tool get_transaction_history
    rw [h]
  · intro p q c h1 h2
    unfold get_coin_price_tool get_price get_coingecko_id
    rw [h1, h2]
  · intro p q n h1 h2
    unfold get_nft_floor_price_tool get_floor_price get_coingecko_id
    rw [h1, h2]
  · intro p q n h1 h2 h3
    unfold get_protocol_total_value_locked_tool get_protocol_tvl
      get_protocols_list get_coingecko_id
    rw [h1, h2, h3]
  · intro p q c h1 h2
    unfold get_fully_diluted_valuation_tool get_fdv get_coingecko_id
    rw [h1, h2]
  · intro p q c h1 h2
    unfold get_coin_market_cap_tool get_market_cap get_coingecko_id
    rw [h1, h2]

/-- A provider identical to `pBitcoin` on the search and pricing
endpoints, but different elsewhere. -/
def pBitcoinVariant : Provider :=
  { pBitcoin with gasFees := fun _ => .ok (.num 5) }

/-- C8 witness: two invocations of the price adapter with the same
argument against providers with identical search/pricing responses return
the same string. -/
theorem C8_determinism_witness :
    get_coin_price_tool pBitcoin "bitcoin"
      = get_coin_price_tool pBitcoinVariant "bitcoin" :=
  C8_determinism.2.2.2.2.1 pBitcoin pBitcoinVariant "bitcoin" rfl rfl

/-- A transport failure of the search endpoint is re-raised by the name
resolver, whatever the requested kind. -/
theorem resolver_transport (p : Provider) (text type : String)
    (h : p.search text = .httpError) :
    get_coingecko_id p text type = (.error .requestException, [.search text]) := by
  unfold get_coingecko_id
  rw [h]

/-- C1: for every fetcher, a non-2xx or connection-error response from the
provider (at any of the requests the fetcher issues) makes the fetcher
raise the transport failure (`RequestException`) to its caller; and every
adapter converts a `RequestException` raised by its fetcher into its fixed
API-error string instead of letting it escape. -/
theorem C1_transport_failures :
    (∀ (p : Provider) (w b : String), p.walletBalance b w = .httpError →
        (get_wallet_balance p w b).1 = .error .requestException) ∧
    (∀ (p : Provider) (w b : String), p.transactions b w = .httpError →
        (get_transaction_history p w b).1 = .error .requestException) ∧
    (∀ (p : Provider) (b : String), p.gasFees b = .httpError →
        (get_gas_fees p b).1 = .error .requestException) ∧
    (∀ (p : Provider) (tk b : String), p.tokenMetadata b tk = .httpError →
        (get_token_metadata p tk b).1 = .error .requestException) ∧
    (∀ (p : Provider) (n : String), p.search n = .httpError →
        (get_price p n).1 = .error .requestException ∧
        (get_floor_price p n).1 = .error .requestException ∧
        (get_fdv p n).1 = .error .requestException ∧
        (get_market_cap p n).1 = .error .requestException) ∧
    (∀ (p : Provider) (n : String) (cid : Json) (t : List Request),
        get_coingecko_id p n "coin" = (.ok cid, t) → cid.truthy = true →
        p.simplePrice cid = .httpError →
        (get_price p n).1 = .error .requestException) ∧
    (∀ (p : Provider) (n : String) (cid : Json) (t : List Request),
        get_coingecko_id p n "nft" = (.ok cid, t) → cid.truthy = true →
        p.nfts cid = .httpError →
        (get_floor_price p n).1 = .error .requestException) ∧
    (∀ (p : Provider) (n : String) (cid : Json) (t : List Request),
        get_coingecko_id p n "coin" = (.ok cid, t) → cid.truthy = true →
        p.coins cid = .httpError →
        (get_fdv p n).1 = .error .requestException) ∧
    (∀ (p : Provider) (n : String) (cid : Json) (t : List Request),
        get_coingecko_id p n "coin" = (.ok cid, t) → cid.truthy = true →
        p.coinsMarkets cid = .httpError →
        (get_market_cap p n).1 = .error .requestException) ∧
    (∀ (p : Provider) (n : String), p.protocols = .httpError →
        (get_protocol_tvl p n).1 = .error .requestException) ∧
    (∀ (p : Provider) (n : String) (slugs geckos : List Json),
        get_protocols_list p = (.ok (slugs, geckos), [.protocolsReq]) →
        p.search n = .httpError →
        (get_protocol_tvl p n).1 = .error .requestException) ∧
    (∀ (p : Provider) (n : String) (slugs geckos : List Json) (tag slug g : Json),
        get_protocols_list p = (.ok (slugs, geckos), [.protocolsReq]) →
        get_coingecko_id p n "coin" = (.ok tag, [.search n]) → tag.truthy = true →
        (slugs.zip geckos).find? (fun ij => Json.beq ij.2 tag) = some (slug, g) →
        slug.truthy = true → p.tvl slug = .httpError →
        (get_protocol_tvl p n).1 = .error .requestException) ∧
    (∀ (p : Provider) (w b : String),
        (get_wallet_balance p w b).1 = .error .requestException →
        get_wallet_balance_tool p w b
          = .ok "API error occurred while retrieving wallet balance.") ∧
    (∀ (p : Provider) (b : String),
        (get_gas_fees p b).1 = .error .requestException →
        get_gas_fees_tool p b = .ok "API error occurred while retrieving gas fees.") ∧
    (∀ (p : Provider) (tk b : String),
        (get_token_metadata p tk b).1 = .error .requestException →
        get_token_metadata_tool p tk b
          = .ok "API error occurred while retrieving token metadata.") ∧
    (∀ (p : Provider) (w b : String),
        (get_transaction_history p w b).1 = .error .requestException →
        get_transaction_history_tool p w b
          = .ok "API error occurred while retrieving transaction history.") ∧
    (∀ (p : Provider) (n : String),
        (get_price p n).1 = .error .requestException →
        get_coin_price_tool p n = .ok Config.API_ERROR_MESSAGE) ∧
    (∀ (p : Provider) (n : String),
        (get_floor_price p n).1 = .error .requestException →
        get_nft_floor_price_tool p n = .ok Config.API_ERROR_MESSAGE) ∧
    (∀ (p : Provider) (n : String),
        (get_protocol_tvl p n).1 = .error .requestException →
        get_protocol_total_value_locked_tool p n = .ok Config.API_ERROR_MESSAGE) ∧
    (∀ (p : Provider) (n : String),
        (get_fdv p n).1 = .error .requestException →
        get_fully_diluted_valuation_tool p n = .ok Config.API_ERROR_MESSAGE) ∧
    (∀ (p : Provider) (n : String),
        (get_market_cap p n).1 = .error .requestException →
        get_coin_market_cap_tool p n = .ok Config.API_ERROR_MESSAGE) := by
  refine ⟨?_, ?_, ?_, ?_, ?_, ?_, ?_, ?_, ?_, ?_, ?_, ?_, ?_, ?_, ?_, ?_, ?_, ?_, ?_, ?_, ?_⟩
  · intro p w b h
    simp [get_wallet_balance, h]
  · intro p w b h
    simp [get_transaction_history, h]
  · intro p b h
    simp [get_gas_fees, h]
  · intro p tk b h
    simp [get_token_metadata, h]
  · intro p n h
    refine ⟨?_, ?_, ?_, ?_⟩
    · unfold get_price
      rw [resolver_transport p n "coin" h]
    · unfold get_floor_price
      rw [resolver_transport p n "nft" h]
    · unfold get_fdv
      rw [resolver_transport p n "coin" h]
    · unfold get_market_cap
      rw [resolver_transport p n "coin" h]
  · intro p n cid t hres htr hdown
    unfold get_price
    rw [hres]
    simp [htr, hdown]
  · intro p n cid t hres htr hdown
    unfold get_floor_price
    rw [hres]
    simp [htr, hdown]
  · intro p n cid t hres htr hdown
    unfold get_fdv
    rw [hres]
    simp [htr, hdown]
  · intro p n cid t hres htr hdown
    unfold get_market_cap
    rw [hres]
    simp [htr, hdown]
  · intro p n h
    unfold get_protocol_tvl get_protocols_list
    rw [h]
  · intro p n slugs geckos hprot h
    unfold get_protocol_tvl
    rw [hprot, resolver_transport p n "coin" h]
  · intro p n slugs geckos tag slug g hprot hres htag hfind hslug htvl
    unfold get_protocol_tvl
    rw [hprot, hres]
    simp [htag, hfind, hslug, htvl]
  · intro p w b h
    unfold get_wallet_balance_tool
    rw [h]
  · intro p b h
    unfold get_gas_fees_tool
    rw [h]
  · intro p tk b h
    unfold get_token_metadata_tool
    rw [h]
  · intro p w b h
    unfold get_transaction_history_tool
    rw [h]
  · intro p n h
    unfold get_coin_price_tool
    rw [h]
  · intro p n h
    unfold get_nft_floor_price_tool
    rw [h]
  · intro p n h
    unfold get_protocol_total_value_locked_tool
    rw [h]
  · intro p n h
    unfold get_fully_diluted_valuation_tool
    rw [h]
  · intro p n h
    unfold get_coin_market_cap_tool
    rw [h]

/-- C1 witness: with every endpoint down, the wallet-balance fetcher and
the price fetcher raise the transport failure, and both adapters convert
it to their fixed API-error strings. -/
theorem C1_transport_failures_witness :
    (get_wallet_balance pDown "0xabc" "ethereum").1 = .error .requestException ∧
      get_wallet_balance_tool pDown "0xabc" "ethereum"
        = .ok "API error occurred while retrieving wallet balance." ∧
      (get_price pDown "bitcoin").1 = .error .requestException ∧
      get_coin_price_tool pDown "bitcoin" = .ok Config.API_ERROR_MESSAGE := by
  have h1 := C1_transport_failures.1 pDown "0xabc" "ethereum" rfl
  have h2 := C1_transport_failures.2.2.2.2.2.2.2.2.2.2.2.2.1 pDown "0xabc" "ethereum" h1
  have h3 := (C1_transport_failures.2.2.2.2.1 pDown "bitcoin" rfl).1
  have h4 :=
    C1_transport_failures.2.2.2.2.2.2.2.2.2.2.2.2.2.2.2.2.1 pDown "bitcoin" h3
  exact ⟨h1, h2, h3, h4⟩

set_option maxRecDepth 4000

/-- `SequenceMatcher` total for the query against `"uniswap"`: the block
`"uniswap"` of length 7. -/
theorem mtU : matchingTotal "uniswap v3".data "uniswap".data = 7 := by
  rw [matchingTotal_step "uniswap v3".data "uniswap".data 0 0 7 (by decide) (by decide)]
  rw [matchingTotal_zero _ _ (by decide), matchingTotal_zero _ _ (by decide)]

/-- `SequenceMatcher` total for the query against `"sushiswap"`: the block
`"iswap"` of length 5 plus the `"u"` to its left. -/
theorem mtS : matchingTotal "uniswap v3".data "sushiswap".data = 6 := by
  rw [matchingTotal_step "uniswap v3".data "sushiswap".data 2 4 5 (by decide) (by decide)]
  rw [show List.take 2 "uniswap v3".data = "un".data from by decide,
      show List.take 4 "sushiswap".data = "sush".data from by decide,
      show List.drop (2 + 5) "uniswap v3".data = " v3".data from by decide,
      show List.drop (4 + 5) "sushiswap".data = ([] : List Char) from by decide]
  rw [matchingTotal_step "un".data "sush".data 0 1 1 (by decide) (by decide)]
  rw [show List.take 0 "un".data = ([] : List Char) from by decide,
      show List.take 1 "sush".data = "s".data from by decide,
      show List.drop (0 + 1) "un".data = "n".data from by decide,
      show List.drop (1 + 1) "sush".data = "sh".data from by decide]
  rw [matchingTotal_zero [] "s".data (by decide),
      matchingTotal_zero "n".data "sh".data (by decide),
      matchingTotal_zero " v3".data [] (by decide)]

/-- `SequenceMatcher` total for the query against `"pancakeswap"`: the
block `"swap"` of length 4 plus the `"n"` to its left. -/
theorem mtP : matchingTotal "uniswap v3".data "pancakeswap".data = 5 := by
  rw [matchingTotal_step "uniswap v3".data "pancakeswap".data 3 7 4 (by decide) (by decide)]
  rw [show List.take 3 "uniswap v3".data = "uni".data from by decide,
      show List.take 7 "pancakeswap".data = "pancake".data from by decide,
      show List.drop (3 + 4) "uniswap v3".data = " v3".data from by decide,
      show List.drop (7 + 4) "pancakeswap".data = ([] : List Char) from by decide]
  rw [matchingTotal_step "uni".data "pancake".data 1 2 1 (by decide) (by decide)]
  rw [show List.take 1 "uni".data = "u".data from by decide,
      show List.take 2 "pancake".data = "pa".data from by decide,
      show List.drop (1 + 1) "uni".data = "i".data from by decide,
      show List.drop (2 + 1) "pancake".data = "cake".data from by decide]
  rw [matchingTotal_zero "u".data "pa".data (by decide),
      matchingTotal_zero "i".data "cake".data (by decide),
      matchingTotal_zero " v3".data [] (by decide)]

/-- Sequence-similarity score of `"uniswap"` against the query. -/
theorem scoreU : smScore "uniswap v3" "uniswap" = 14 / 17 := by
  unfold smScore
  rw [mtU, show "uniswap v3".data.length = 10 from by decide,
      show "uniswap".data.length = 7 from by decide]
  norm_num [calcScore]

/-- Sequence-similarity score of `"sushiswap"` against the query. -/
theorem scoreS : smScore "uniswap v3" "sushiswap" = 12 / 19 := by
  unfold smScore
  rw [mtS, show "uniswap v3".data.length = 10 from by decide,
      show "sushiswap".data.length = 9 from by decide]
  norm_num [calcScore]

/-- Sequence-similarity score of `"pancakeswap"` against the query. -/
theorem scoreP : smScore "uniswap v3" "pancakeswap" = 10 / 21 := by
  unfold smScore
  rw [mtP, show "uniswap v3".data.length = 10 from by decide,
      show "pancakeswap".data.length = 11 from by decide]
  norm_num [calcScore]

/-- Re-rank outcome for the narrowed order pancake/sushi/uniswap. -/
theorem rerank210 :
    rerank "uniswap v3" ["uniswap", "sushiswap", "pancakeswap"] [2, 1, 0]
      = some "uniswap" := by
  have h : rerank "uniswap v3" ["uniswap", "sushiswap", "pancakeswap"] [2, 1, 0]
      = (maxIdxFirst [smScore "uniswap v3" "pancakeswap",
          smScore "uniswap v3" "sushiswap", smScore "uniswap v3" "uniswap"]).map
        (fun i => ["pancakeswap", "sushiswap", "uniswap"].getD i "") := rfl
  rw [h, scoreU, scoreS, scoreP]
  have hm : maxIdxFirst [(10:ℚ)/21, 12/19, 14/17] = some 2 := by
    unfold maxIdxFirst
    norm_num [List.range_succ, List.getD]
  rw [hm]
  rfl

/-- Re-rank outcome for the narrowed order sushi/pancake/uniswap. -/
theorem rerank120 :
    rerank "uniswap v3" ["uniswap", "sushiswap", "pancakeswap"] [1, 2, 0]
      = some "uniswap" := by
  have h : rerank "uniswap v3" ["uniswap", "sushiswap", "pancakeswap"] [1, 2, 0]
      = (maxIdxFirst [smScore "uniswap v3" "sushiswap",
          smScore "uniswap v3" "pancakeswap", smScore "uniswap v3" "uniswap"]).map
        (fun i => ["sushiswap", "pancakeswap", "uniswap"].getD i "") := rfl
  rw [h, scoreU, scoreS, scoreP]
  have hm : maxIdxFirst [(12:ℚ)/19, 10/21, 14/17] = some 2 := by
    unfold maxIdxFirst
    norm_num [List.range_succ, List.getD]
  rw [hm]
  rfl

/-- Re-rank outcome for the narrowed order sushi/uniswap/pancake. -/
theorem rerank102 :
    rerank "uniswap v3" ["uniswap", "sushiswap", "pancakeswap"] [1, 0, 2]
      = some "uniswap" := by
  have h : rerank "uniswap v3" ["uniswap", "sushiswap", "pancakeswap"] [1, 0, 2]
      = (maxIdxFirst [smScore "uniswap v3" "sushiswap",
          smScore "uniswap v3" "uniswap", smScore "uniswap v3" "pancakeswap"]).map
        (fun i => ["sushiswap", "uniswap", "pancakeswap"].getD i "") := rfl
  rw [h, scoreU, scoreS, scoreP]
  have hm : maxIdxFirst [(12:ℚ)/19, 14/17, 10/21] = some 1 := by
    unfold maxIdxFirst
    norm_num [List.range_succ, List.getD]
  rw [hm]
  rfl

/-- Re-rank outcome for the narrowed order pancake/uniswap/sushi. -/
theorem rerank201 :
    rerank "uniswap v3" ["uniswap", "sushiswap", "pancakeswap"] [2, 0, 1]
      = some "uniswap" := by
  have h : rerank "uniswap v3" ["uniswap", "sushiswap", "pancakeswap"] [2, 0, 1]
      = (maxIdxFirst [smScore "uniswap v3" "pancakeswap",
          smScore "uniswap v3" "uniswap", smScore "uniswap v3" "sushiswap"]).map
        (fun i => ["pancakeswap", "uniswap", "sushiswap"].getD i "") := rfl
  rw [h, scoreU, scoreS, scoreP]
  have hm : maxIdxFirst [(10:ℚ)/21, 14/17, 12/19] = some 1 := by
    unfold maxIdxFirst
    norm_num [List.range_succ, List.getD]
  rw [hm]
  rfl

/-- Re-rank outcome for the narrowed order uniswap/pancake/sushi. -/
theorem rerank021 :
    rerank "uniswap v3" ["uniswap", "sushiswap", "pancakeswap"] [0, 2, 1]
      = some "uniswap" := by
  have h : rerank "uniswap v3" ["uniswap", "sushiswap", "pancakeswap"] [0, 2, 1]
      = (maxIdxFirst [smScore "uniswap v3" "uniswap",
          smScore "uniswap v3" "pancakeswap", smScore "uniswap v3" "sushiswap"]).map
        (fun i => ["uniswap", "pancakeswap", "sushiswap"].getD i "") := rfl
  rw [h, scoreU, scoreS, scoreP]
  have hm : maxIdxFirst [(14:ℚ)/17, 10/21, 12/19] = some 0 := by
    unfold maxIdxFirst
    norm_num [List.range_succ, List.getD]
  rw [hm]
  rfl

/-- Re-rank outcome for the narrowed order uniswap/sushi/pancake. -/
theorem rerank012 :
    rerank "uniswap v3" ["uniswap", "sushiswap", "pancakeswap"] [0, 1, 2]
      = some "uniswap" := by
  have h : rerank "uniswap v3" ["uniswap", "sushiswap", "pancakeswap"] [0, 1, 2]
      = (maxIdxFirst [smScore "uniswap v3" "uniswap",
          smScore "uniswap v3" "sushiswap", smScore "uniswap v3" "pancakeswap"]).map
        (fun i => ["uniswap", "sushiswap", "pancakeswap"].getD i "") := rfl
  rw [h, scoreU, scoreS, scoreP]
  have hm : maxIdxFirst [(14:ℚ)/17, 12/19, 10/21] = some 0 := by
    unfold maxIdxFirst
    norm_num [List.range_succ, List.getD]
  rw [hm]
  rfl

/-- C5: `get_most_similar` narrows the candidates to the (at most) 20 with
the highest TF-IDF cosine-similarity scores, re-ranks just that narrowed
set by `SequenceMatcher` character-sequence similarity ratio against the
raw query, and returns the top-ranked candidate; on the candidates
`["uniswap", "sushiswap", "pancakeswap"]` and the query `"uniswap v3"` it
returns `"uniswap"` — proved for *every* possible cosine-score vector, so
in particular for the one sklearn computes: with three candidates all
survive the top-20 cut in some order, and `"uniswap"` holds the strictly
largest sequence ratio (14/17 against 12/19 and 10/21). -/
theorem C5_best_match :
    ∀ scores : List ℚ, scores.length = 3 →
      get_most_similar scores "uniswap v3" ["uniswap", "sushiswap", "pancakeswap"]
        = some "uniswap" := by
  intro scores hlen
  obtain ⟨s0, s1, s2, rfl⟩ := List.length_eq_three.mp hlen
  have hz : (List.range ([s0, s1, s2] : List ℚ).length).zip [s0, s1, s2]
      = [(0, s0), (1, s1), (2, s2)] := rfl
  unfold get_most_similar
  by_cases h01 : s0 ≤ s1
  · by_cases h02 : s0 ≤ s2
    · by_cases h12 : s1 ≤ s2
      · rw [show argsortAsc [s0, s1, s2] = [0, 1, 2] from by
          unfold argsortAsc
          rw [hz]
          simp [sortedInsert, h01, h02, h12]]
        rw [show (takeLast 20 [0, 1, 2]).reverse = [2, 1, 0] from rfl]
        exact rerank210
      · rw [show argsortAsc [s0, s1, s2] = [0, 2, 1] from by
          unfold argsortAsc
          rw [hz]
          simp [sortedInsert, h01, h02, h12]]
        rw [show (takeLast 20 [0, 2, 1]).reverse = [1, 2, 0] from rfl]
        exact rerank120
    · rw [show argsortAsc [s0, s1, s2] = [2, 0, 1] from by
        unfold argsortAsc
        rw [hz]
        simp [sortedInsert, h01, h02]]
      rw [show (takeLast 20 [2, 0, 1]).reverse = [1, 0, 2] from rfl]
      exact rerank102
  · by_cases h12 : s1 ≤ s2
    · by_cases h02 : s0 ≤ s2
      · rw [show argsortAsc [s0, s1, s2] = [1, 0, 2] from by
          unfold argsortAsc
          rw [hz]
          simp [sortedInsert, h01, h02, h12]]
        rw [show (takeLast 20 [1, 0, 2]).reverse = [2, 0, 1] from rfl]
        exact rerank201
      · rw [show argsortAsc [s0, s1, s2] = [1, 2, 0] from by
          unfold argsortAsc
          rw [hz]
          simp [sortedInsert, h01, h02, h12]]
        rw [show (takeLast 20 [1, 2, 0]).reverse = [0, 2, 1] from rfl]
        exact rerank021
    · rw [show argsortAsc [s0, s1, s2] = [2, 1, 0] from by
        unfold argsortAsc
        rw [hz]
        simp [sortedInsert, h01, h12]]
      rw [show (takeLast 20 [2, 1, 0]).reverse = [0, 1, 2] from rfl]
      exact rerank012

/-- C5 witness: the best-match result at one concrete score vector. -/
theorem C5_best_match_witness :
    get_most_similar [1, 0, 0] "uniswap v3" ["uniswap", "sushiswap", "pancakeswap"]
      = some "uniswap" :=
  C5_best_match [1, 0, 0] rfl
